import Mathlib

/-!
# Verification of pebble's event-notification subsystem (`event.go`)

Shallow embedding of `src/github.com/cockroachdb/pebble/event.go`:

* Each event payload struct becomes a Lean structure. Go `uint64` fields
  (`FileNum`, `Size`) are `Nat` (sums wrap mod 2^64 where the Go code adds
  them); Go `int` fields (`JobID`, `Level`, flush `Input`) are `Int`;
  `time.Duration` is modelled as nonnegative nanoseconds (`Nat`); the Go
  `error` field becomes `Option String` carrying the message text that `%s`
  would render.
* The `redact` package's `SafePrinter` output is modelled as a list of
  tagged tokens ([RTok]): literal format-string chunks and arguments wrapped
  in `redact.Safe` are `.safe`, arguments passed without wrapping (the `Err`
  values) are `.sensitive`. The final string interleaves the token texts,
  applying an abstract `sensitiveWrap` (the redaction markers that the
  external `redact` package puts around unredacted unsafe content).
* Formatters that live outside this file (`internal/humanize.Uint64`,
  `manifest.FileNum.String`, the redaction marker convention) are abstract
  parameters collected in [ExtFmt], so every theorem below holds for every
  choice of those external collaborators.
* `uint64(float64(outputSize)/duration.Seconds())` divides by zero when the
  duration is zero; Go leaves the `uint64` conversion of the resulting
  Inf/NaN unspecified, which we model by routing an abstract, unspecified
  value `ExtFmt.undefinedU64` into the humanizer in that case.
-/

namespace Pebble

/-- `manifest.TableInfo`: one persisted data file. `FileNum` and `Size` are
Go `uint64`, modelled as `Nat`. -/
structure TableInfo where
  FileNum : Nat
  Size : Nat
deriving DecidableEq

/-- `tablesTotalSize` from event.go: sums the sizes; the Go sum is `uint64`
arithmetic, so each addition wraps mod 2^64. -/
def tablesTotalSize (tables : List TableInfo) : Nat :=
  tables.foldl (fun size t => (size + t.Size) % 2 ^ 64) 0

/-- The output of a `redact.SafePrinter`: a literal chunk or a
`redact.Safe`-wrapped argument is disclosable (`safe`); an argument passed
without wrapping (the `Err` values) is redactable (`sensitive`). -/
inductive RTok where
  | safe (s : String)
  | sensitive (s : String)
deriving DecidableEq

/-- Whether a token is tagged as disclosable. -/
def RTok.isSafe : RTok → Bool
  | .safe _ => true
  | .sensitive _ => false

/-- The external collaborators of event.go, kept abstract: the humanized
size formatter `internal/humanize.Uint64`, the file-number token
`manifest.FileNum.String`, the marker the `redact` package puts around
unredacted sensitive content, and the unspecified `uint64` that Go's
conversion of the Inf/NaN produced by a zero-duration rate division
yields on a given platform. -/
structure ExtFmt where
  humanizeUint64 : Nat → String
  fileNumStr : Nat → String
  sensitiveWrap : String → String
  undefinedU64 : Nat

/-- Text a token contributes to the final string. -/
def RTok.text (fmt : ExtFmt) : RTok → String
  | .safe s => s
  | .sensitive s => fmt.sensitiveWrap s

/-- Concatenated text of a token list: the string a `SafeFormat` renders. -/
def toksStr (fmt : ExtFmt) (ts : List RTok) : String :=
  String.join (ts.map (RTok.text fmt))

/-- `formatFileNums` from event.go: the file-number token of each table,
separated by single spaces (the loop writes `" "` before every table but
the first). -/
def formatFileNums (fmt : ExtFmt) : List TableInfo → String
  | [] => ""
  | t :: rest =>
      rest.foldl (fun buf u => buf ++ " " ++ fmt.fileNumStr u.FileNum)
        (fmt.fileNumStr t.FileNum)

/-- `LevelInfo` from event.go. `Level` is a Go `int`. -/
structure LevelInfo where
  Level : Int
  Tables : List TableInfo
deriving DecidableEq

/-- `LevelInfo.safeFormat`: `w.Printf("L%d [%s] (%s)", ...)` with every
argument wrapped in `redact.Safe`. -/
def LevelInfo.toks (fmt : ExtFmt) (i : LevelInfo) : List RTok :=
  [.safe "L", .safe (toString i.Level), .safe " [",
   .safe (formatFileNums fmt i.Tables), .safe "] (",
   .safe (fmt.humanizeUint64 (tablesTotalSize i.Tables)), .safe ")"]

/-- Rendered string of `LevelInfo.safeFormat`. -/
def LevelInfo.render (fmt : ExtFmt) (i : LevelInfo) : String :=
  toksStr fmt (i.toks fmt)

/-- `%.1f` applied to `Duration.Seconds()` (event.go renders elapsed time
with one decimal of precision in seconds). Modelled on the exact rational
`nanos / 10^9`, rounding half away from zero to one decimal place. -/
def formatSeconds1 (nanos : Nat) : String :=
  let t := (nanos + 50000000) / 100000000
  toString (t / 10) ++ "." ++ toString (t % 10)

/-- `uint64(float64(size)/duration.Seconds())` from event.go. When the
duration is zero nanoseconds this divides by zero (Go: `Inf` or `NaN`,
whose `uint64` conversion is unspecified), modelled as `none`; otherwise
the exact quotient truncated to an integer. -/
def outputRate (size nanos : Nat) : Option Nat :=
  if nanos = 0 then none else some (size * 1000000000 / nanos)

/-- The humanized output-rate token: the unguarded Go expression feeds
either the computed rate or (for a zero duration) the platform's
unspecified `uint64` into `humanize.Uint64`. -/
def rateTok (fmt : ExtFmt) (size nanos : Nat) : String :=
  fmt.humanizeUint64 ((outputRate size nanos).getD fmt.undefinedU64)

/-- `CompactionInfo` from event.go. -/
structure CompactionInfo where
  JobID : Int
  Reason : String
  Input : List LevelInfo
  Output : LevelInfo
  Duration : Nat
  Done : Bool
  Err : Option String
deriving DecidableEq

/-- `CompactionInfo.safeFormatInputs`: the loop writes `" + "` before every
level group but the first, then the group's `safeFormat`. -/
def CompactionInfo.inputToks (fmt : ExtFmt) (i : CompactionInfo) : List RTok :=
  match i.Input with
  | [] => []
  | l0 :: rest =>
      l0.toks fmt ++ (rest.map (fun li => RTok.safe " + " :: li.toks fmt)).flatten

/-- `CompactionInfo.SafeFormat`: error shape, in-progress shape, or
completed shape (with output statistics and rate). Only `i.Err` is passed
unwrapped to the printer. -/
def CompactionInfo.toks (fmt : ExtFmt) (i : CompactionInfo) : List RTok :=
  match i.Err with
  | some e =>
      [.safe "[JOB ", .safe (toString i.JobID), .safe "] compaction to L",
       .safe (toString i.Output.Level), .safe " error: ", .sensitive e]
  | none =>
      if !i.Done then
        [RTok.safe "[JOB ", .safe (toString i.JobID), .safe "] compacting "]
          ++ i.inputToks fmt
      else
        [RTok.safe "[JOB ", .safe (toString i.JobID), .safe "] compacted "]
          ++ i.inputToks fmt
          ++ [RTok.safe " -> L", .safe (toString i.Output.Level), .safe " [",
              .safe (formatFileNums fmt i.Output.Tables), .safe "] (",
              .safe (fmt.humanizeUint64 (tablesTotalSize i.Output.Tables)),
              .safe "), in ", .safe (formatSeconds1 i.Duration),
              .safe "s, output rate ",
              .safe (rateTok fmt (tablesTotalSize i.Output.Tables) i.Duration),
              .safe "/s"]

/-- Rendered string of `CompactionInfo.SafeFormat` (what `String()` yields,
with the external redaction-marker convention abstracted in `fmt`). -/
def CompactionInfo.render (fmt : ExtFmt) (i : CompactionInfo) : String :=
  toksStr fmt (i.toks fmt)

/-- `FlushInfo` from event.go. `Input` is the Go `int` count of flushed
memtables. -/
structure FlushInfo where
  JobID : Int
  Reason : String
  Input : Int
  Output : List TableInfo
  Duration : Nat
  Done : Bool
  Err : Option String
deriving DecidableEq

/-- The pluralization suffix of `FlushInfo.SafeFormat`: `redact.SafeString("s")`
unless `i.Input == 1`. -/
def FlushInfo.plural (i : FlushInfo) : String :=
  if i.Input = 1 then "" else "s"

/-- `FlushInfo.SafeFormat`: error shape, in-progress shape (`flushing ... to
L0`), or completed shape with output statistics and rate. Only `i.Err` is
passed unwrapped. -/
def FlushInfo.toks (fmt : ExtFmt) (i : FlushInfo) : List RTok :=
  match i.Err with
  | some e =>
      [.safe "[JOB ", .safe (toString i.JobID), .safe "] flush error: ",
       .sensitive e]
  | none =>
      if !i.Done then
        [.safe "[JOB ", .safe (toString i.JobID), .safe "] flushing ",
         .safe (toString i.Input), .safe " memtable", .safe i.plural,
         .safe " to L0"]
      else
        [.safe "[JOB ", .safe (toString i.JobID), .safe "] flushed ",
         .safe (toString i.Input), .safe " memtable", .safe i.plural,
         .safe " to L0 [", .safe (formatFileNums fmt i.Output), .safe "] (",
         .safe (fmt.humanizeUint64 (tablesTotalSize i.Output)),
         .safe "), in ", .safe (formatSeconds1 i.Duration),
         .safe "s, output rate ",
         .safe (rateTok fmt (tablesTotalSize i.Output) i.Duration),
         .safe "/s"]

/-- Rendered string of `FlushInfo.SafeFormat`. -/
def FlushInfo.render (fmt : ExtFmt) (i : FlushInfo) : String :=
  toksStr fmt (i.toks fmt)

/-- `ManifestCreateInfo` from event.go. -/
structure ManifestCreateInfo where
  JobID : Int
  Path : String
  FileNum : Nat
  Err : Option String
deriving DecidableEq

/-- `ManifestCreateInfo.SafeFormat`. `Path` is never printed. -/
def ManifestCreateInfo.toks (fmt : ExtFmt) (i : ManifestCreateInfo) : List RTok :=
  match i.Err with
  | some e =>
      [.safe "[JOB ", .safe (toString i.JobID),
       .safe "] MANIFEST create error: ", .sensitive e]
  | none =>
      [.safe "[JOB ", .safe (toString i.JobID), .safe "] MANIFEST created ",
       .safe (fmt.fileNumStr i.FileNum)]

/-- Rendered string of `ManifestCreateInfo.SafeFormat`. -/
def ManifestCreateInfo.render (fmt : ExtFmt) (i : ManifestCreateInfo) : String :=
  toksStr fmt (i.toks fmt)

/-- `ManifestDeleteInfo` from event.go. -/
structure ManifestDeleteInfo where
  JobID : Int
  Path : String
  FileNum : Nat
  Err : Option String
deriving DecidableEq

/-- `ManifestDeleteInfo.SafeFormat`. `Path` is never printed. -/
def ManifestDeleteInfo.toks (fmt : ExtFmt) (i : ManifestDeleteInfo) : List RTok :=
  match i.Err with
  | some e =>
      [.safe "[JOB ", .safe (toString i.JobID),
       .safe "] MANIFEST delete error: ", .sensitive e]
  | none =>
      [.safe "[JOB ", .safe (toString i.JobID), .safe "] MANIFEST deleted ",
       .safe (fmt.fileNumStr i.FileNum)]

/-- Rendered string of `ManifestDeleteInfo.SafeFormat`. -/
def ManifestDeleteInfo.render (fmt : ExtFmt) (i : ManifestDeleteInfo) : String :=
  toksStr fmt (i.toks fmt)

/-- `TableCreateInfo` from event.go: no error variant. -/
structure TableCreateInfo where
  JobID : Int
  Reason : String
  Path : String
  FileNum : Nat
deriving DecidableEq

/-- `TableCreateInfo.SafeFormat`: `w.Printf("[JOB %d] %s: sstable created %s",
redact.Safe(i.JobID), redact.Safe(i.Reason), redact.Safe(i.FileNum))` — note
that `Reason` is wrapped in `redact.Safe` and `Path` is never printed. -/
def TableCreateInfo.toks (fmt : ExtFmt) (i : TableCreateInfo) : List RTok :=
  [.safe "[JOB ", .safe (toString i.JobID), .safe "] ", .safe i.Reason,
   .safe ": sstable created ", .safe (fmt.fileNumStr i.FileNum)]

/-- Rendered string of `TableCreateInfo.SafeFormat`. -/
def TableCreateInfo.render (fmt : ExtFmt) (i : TableCreateInfo) : String :=
  toksStr fmt (i.toks fmt)

/-- `TableDeleteInfo` from event.go. -/
structure TableDeleteInfo where
  JobID : Int
  Path : String
  FileNum : Nat
  Err : Option String
deriving DecidableEq

/-- `TableDeleteInfo.SafeFormat`. `Path` is never printed. -/
def TableDeleteInfo.toks (fmt : ExtFmt) (i : TableDeleteInfo) : List RTok :=
  match i.Err with
  | some e =>
      [.safe "[JOB ", .safe (toString i.JobID), .safe "] sstable delete error ",
       .safe (fmt.fileNumStr i.FileNum), .safe ": ", .sensitive e]
  | none =>
      [.safe "[JOB ", .safe (toString i.JobID), .safe "] sstable deleted ",
       .safe (fmt.fileNumStr i.FileNum)]

/-- Rendered string of `TableDeleteInfo.SafeFormat`. -/
def TableDeleteInfo.render (fmt : ExtFmt) (i : TableDeleteInfo) : String :=
  toksStr fmt (i.toks fmt)

/-- One entry of `TableIngestInfo.Tables`: an embedded `TableInfo` plus the
level the table was ingested into. -/
structure IngestTable where
  Table : TableInfo
  Level : Int
deriving DecidableEq

/-- `TableIngestInfo` from event.go. `GlobalSeqNum` is a Go `uint64`. -/
structure TableIngestInfo where
  JobID : Int
  Tables : List IngestTable
  GlobalSeqNum : Nat
  Err : Option String
deriving DecidableEq

/-- The per-table chunk of `TableIngestInfo.SafeFormat`:
`w.Printf(" L%d:%s (%s)", ...)`, all arguments `redact.Safe`. -/
def IngestTable.toks (fmt : ExtFmt) (t : IngestTable) : List RTok :=
  [.safe " L", .safe (toString t.Level), .safe ":",
   .safe (fmt.fileNumStr t.Table.FileNum), .safe " (",
   .safe (fmt.humanizeUint64 t.Table.Size), .safe ")"]

/-- The table loop of `TableIngestInfo.SafeFormat`: the per-table chunks,
with `","` written before every table but the first. -/
def ingestTablesToks (fmt : ExtFmt) : List IngestTable → List RTok
  | [] => []
  | t0 :: rest =>
      t0.toks fmt ++ (rest.map (fun t => RTok.safe "," :: t.toks fmt)).flatten

/-- `TableIngestInfo.SafeFormat`: error shape, or `[JOB %d] ingested`
followed by the per-table chunks. `GlobalSeqNum` is never printed. -/
def TableIngestInfo.toks (fmt : ExtFmt) (i : TableIngestInfo) : List RTok :=
  match i.Err with
  | some e =>
      [.safe "[JOB ", .safe (toString i.JobID), .safe "] ingest error: ",
       .sensitive e]
  | none =>
      [RTok.safe "[JOB ", .safe (toString i.JobID), .safe "] ingested"]
        ++ ingestTablesToks fmt i.Tables

/-- Rendered string of `TableIngestInfo.SafeFormat`. -/
def TableIngestInfo.render (fmt : ExtFmt) (i : TableIngestInfo) : String :=
  toksStr fmt (i.toks fmt)

/-- `TableStatsInfo` from event.go. -/
structure TableStatsInfo where
  JobID : Int
deriving DecidableEq

/-- `TableStatsInfo.SafeFormat`. -/
def TableStatsInfo.toks (i : TableStatsInfo) : List RTok :=
  [.safe "[JOB ", .safe (toString i.JobID),
   .safe "] all initial table stats loaded"]

/-- Rendered string of `TableStatsInfo.SafeFormat`. -/
def TableStatsInfo.render (fmt : ExtFmt) (i : TableStatsInfo) : String :=
  toksStr fmt i.toks

/-- `WALCreateInfo` from event.go. `RecycledFileNum == 0` means no recycling
took place. -/
structure WALCreateInfo where
  JobID : Int
  Path : String
  FileNum : Nat
  RecycledFileNum : Nat
  Err : Option String
deriving DecidableEq

/-- `WALCreateInfo.SafeFormat`: error shape; plain `WAL created` shape when
`RecycledFileNum == 0`; otherwise the shape naming the recycled file. -/
def WALCreateInfo.toks (fmt : ExtFmt) (i : WALCreateInfo) : List RTok :=
  match i.Err with
  | some e =>
      [.safe "[JOB ", .safe (toString i.JobID), .safe "] WAL create error: ",
       .sensitive e]
  | none =>
      if i.RecycledFileNum = 0 then
        [.safe "[JOB ", .safe (toString i.JobID), .safe "] WAL created ",
         .safe (fmt.fileNumStr i.FileNum)]
      else
        [.safe "[JOB ", .safe (toString i.JobID), .safe "] WAL created ",
         .safe (fmt.fileNumStr i.FileNum), .safe " (recycled ",
         .safe (fmt.fileNumStr i.RecycledFileNum), .safe ")"]

/-- Rendered string of `WALCreateInfo.SafeFormat`. -/
def WALCreateInfo.render (fmt : ExtFmt) (i : WALCreateInfo) : String :=
  toksStr fmt (i.toks fmt)

/-- `WALDeleteInfo` from event.go. -/
structure WALDeleteInfo where
  JobID : Int
  Path : String
  FileNum : Nat
  Err : Option String
deriving DecidableEq

/-- `WALDeleteInfo.SafeFormat`. `Path` is never printed. -/
def WALDeleteInfo.toks (fmt : ExtFmt) (i : WALDeleteInfo) : List RTok :=
  match i.Err with
  | some e =>
      [.safe "[JOB ", .safe (toString i.JobID), .safe "] WAL delete error: ",
       .sensitive e]
  | none =>
      [.safe "[JOB ", .safe (toString i.JobID), .safe "] WAL deleted ",
       .safe (fmt.fileNumStr i.FileNum)]

/-- Rendered string of `WALDeleteInfo.SafeFormat`. -/
def WALDeleteInfo.render (fmt : ExtFmt) (i : WALDeleteInfo) : String :=
  toksStr fmt (i.toks fmt)

/-- `WriteStallBeginInfo` from event.go. -/
structure WriteStallBeginInfo where
  Reason : String
deriving DecidableEq

/-- `WriteStallBeginInfo.SafeFormat`: `w.Printf("write stall beginning: %s",
redact.Safe(i.Reason))` — `Reason` is wrapped in `redact.Safe`. -/
def WriteStallBeginInfo.toks (i : WriteStallBeginInfo) : List RTok :=
  [.safe "write stall beginning: ", .safe i.Reason]

/-- Rendered string of `WriteStallBeginInfo.SafeFormat`. -/
def WriteStallBeginInfo.render (fmt : ExtFmt) (i : WriteStallBeginInfo) : String :=
  toksStr fmt i.toks

/-- The injected logging sink (Go `Logger`), identified abstractly; its
transport is external to event.go. -/
structure Logger where
  sinkId : Nat
deriving DecidableEq

/-- One `logger.Infof(format, args...)` call: which sink received it, the
format string, and the rendered arguments. This is the only observable side
effect a default callback of event.go can have, so a callback is modelled
as a pure function from its payload to the list of `Infof` calls it makes. -/
structure LogEvent where
  logger : Logger
  format : String
  args : List String
deriving DecidableEq

/-- `EventListener` from event.go: one optional callback slot per event
kind. A `none` slot is a Go `nil` function; a `some f` slot is a caller- or
default-supplied callback whose observable effect is the `Infof` calls it
emits. -/
structure EventListener where
  BackgroundError : Option (String → List LogEvent)
  CompactionBegin : Option (CompactionInfo → List LogEvent)
  CompactionEnd : Option (CompactionInfo → List LogEvent)
  FlushBegin : Option (FlushInfo → List LogEvent)
  FlushEnd : Option (FlushInfo → List LogEvent)
  ManifestCreated : Option (ManifestCreateInfo → List LogEvent)
  ManifestDeleted : Option (ManifestDeleteInfo → List LogEvent)
  TableCreated : Option (TableCreateInfo → List LogEvent)
  TableDeleted : Option (TableDeleteInfo → List LogEvent)
  TableIngested : Option (TableIngestInfo → List LogEvent)
  TableStatsLoaded : Option (TableStatsInfo → List LogEvent)
  WALCreated : Option (WALCreateInfo → List LogEvent)
  WALDeleted : Option (WALDeleteInfo → List LogEvent)
  WriteStallBegin : Option (WriteStallBeginInfo → List LogEvent)
  WriteStallEnd : Option (Unit → List LogEvent)

/-- One `if l.X == nil { l.X = default }` assignment of `EnsureDefaults`. -/
def orDefault {α : Type} (slot : Option α) (d : α) : Option α :=
  match slot with
  | none => some d
  | some f => some f

/-- The default `BackgroundError` callback installed by `EnsureDefaults`:
`func(err error) { logger.Infof("background error: %s", err) }`. -/
def defaultBackgroundError (logger : Logger) : String → List LogEvent :=
  fun err => [⟨logger, "background error: %s", [err]⟩]

/-- `EventListener.EnsureDefaults` from event.go: fills every `nil` slot —
`BackgroundError` with the logging default, every other slot with a no-op
that makes no `Infof` call. -/
def EventListener.EnsureDefaults (l : EventListener) (logger : Logger) :
    EventListener where
  BackgroundError := orDefault l.BackgroundError (defaultBackgroundError logger)
  CompactionBegin := orDefault l.CompactionBegin (fun _ => [])
  CompactionEnd := orDefault l.CompactionEnd (fun _ => [])
  FlushBegin := orDefault l.FlushBegin (fun _ => [])
  FlushEnd := orDefault l.FlushEnd (fun _ => [])
  ManifestCreated := orDefault l.ManifestCreated (fun _ => [])
  ManifestDeleted := orDefault l.ManifestDeleted (fun _ => [])
  TableCreated := orDefault l.TableCreated (fun _ => [])
  TableDeleted := orDefault l.TableDeleted (fun _ => [])
  TableIngested := orDefault l.TableIngested (fun _ => [])
  TableStatsLoaded := orDefault l.TableStatsLoaded (fun _ => [])
  WALCreated := orDefault l.WALCreated (fun _ => [])
  WALDeleted := orDefault l.WALDeleted (fun _ => [])
  WriteStallBegin := orDefault l.WriteStallBegin (fun _ => [])
  WriteStallEnd := orDefault l.WriteStallEnd (fun _ => [])

/-- Separator-joined list of strings (an intercalation): the shape both
`formatFileNums` (separator `" "`) and `safeFormatInputs` (separator
`" + "`) produce. -/
def joinSep (sep : String) : List String → String
  | [] => ""
  | [a] => a
  | a :: b :: rest => a ++ sep ++ joinSep sep (b :: rest)

/-- A concrete instantiation of the external formatters, used by the
closed witness theorems: decimal numerals for file numbers, `"<n>B"` for
humanized sizes, and the `redact` package's `‹...›` markers for sensitive
content. -/
def fmt0 : ExtFmt where
  humanizeUint64 := fun n => toString n ++ "B"
  fileNumStr := fun n => toString n
  sensitiveWrap := fun s => "‹" ++ s ++ "›"
  undefinedU64 := 42

/-- The listener with every callback slot unset, used by the closed
witness theorems. -/
def emptyListener : EventListener :=
  ⟨none, none, none, none, none, none, none, none, none, none, none, none,
   none, none, none⟩

/-- A concrete logging sink for the closed witness theorems. -/
def lg0 : Logger := ⟨0⟩

/-! ## Helper lemmas about token-list rendering -/

theorem toksStr_nil (fmt : ExtFmt) : toksStr fmt [] = "" := rfl

theorem toksStr_cons (fmt : ExtFmt) (t : RTok) (ts : List RTok) :
    toksStr fmt (t :: ts) = t.text fmt ++ toksStr fmt ts := by
  apply String.ext
  simp [toksStr, String.data_append]

theorem toksStr_append (fmt : ExtFmt) (a b : List RTok) :
    toksStr fmt (a ++ b) = toksStr fmt a ++ toksStr fmt b := by
  apply String.ext
  simp [toksStr, String.data_append]

theorem foldl_sep_eq {α : Type} (f : α → String) (sep : String) :
    ∀ (rest : List α) (acc : String),
      rest.foldl (fun buf u => buf ++ sep ++ f u) acc
        = acc ++ String.join (rest.map (fun u => sep ++ f u)) := by
  intro rest
  induction rest with
  | nil => intro acc; simp [String.join]
  | cons u rest ih =>
      intro acc
      simp only [List.foldl_cons, ih, List.map_cons]
      apply String.ext
      simp [String.data_append]

theorem join_sepped_eq_joinSep (sep : String) :
    ∀ (a : String) (l : List String),
      a ++ String.join (l.map (fun s => sep ++ s)) = joinSep sep (a :: l) := by
  intro a l
  induction l generalizing a with
  | nil =>
      apply String.ext
      simp [joinSep, String.data_append]
  | cons b rest ih =>
      apply String.ext
      have hb := congrArg String.data (ih b)
      simp only [String.data_append] at hb
      simp only [List.map_cons, joinSep]
      simp only [String.data_append]
      rw [← hb]
      simp [String.data_append, List.append_assoc]

/-- `formatFileNums` is the space-joined list of file-number tokens, in the
order the tables were supplied. -/
theorem formatFileNums_eq_joinSep (fmt : ExtFmt) (tables : List TableInfo) :
    formatFileNums fmt tables
      = joinSep " " (tables.map (fun t => fmt.fileNumStr t.FileNum)) := by
  cases tables with
  | nil => rfl
  | cons t rest =>
      have h := foldl_sep_eq (fun u => fmt.fileNumStr u.FileNum) " " rest
        (fmt.fileNumStr t.FileNum)
      have h2 := join_sepped_eq_joinSep " " (fmt.fileNumStr t.FileNum)
        (rest.map (fun u => fmt.fileNumStr u.FileNum))
      simp only [List.map_map, Function.comp] at h2
      simp only [formatFileNums, List.map_cons]
      simp only [h]
      exact h2

theorem sjoin_cons (s : String) (l : List String) :
    String.join (s :: l) = s ++ String.join l := by
  apply String.ext
  simp [String.data_append]

theorem toksStr_flatten (fmt : ExtFmt) :
    ∀ (L : List (List RTok)),
      toksStr fmt L.flatten = String.join (L.map (toksStr fmt)) := by
  intro L
  induction L with
  | nil => rfl
  | cons a L ih =>
      simp only [List.flatten_cons, List.map_cons, toksStr_append, ih, sjoin_cons]

/-- `safeFormatInputs` renders the level groups in order, joined by
`" + "`. -/
theorem compaction_inputs_str (fmt : ExtFmt) (i : CompactionInfo) :
    toksStr fmt (i.inputToks fmt)
      = joinSep " + " (i.Input.map (LevelInfo.render fmt)) := by
  cases hI : i.Input with
  | nil => simp [CompactionInfo.inputToks, hI, joinSep, toksStr_nil]
  | cons l0 rest =>
      simp only [CompactionInfo.inputToks, hI]
      rw [toksStr_append, toksStr_flatten]
      have h2 := join_sepped_eq_joinSep " + " (l0.render fmt)
        (rest.map (LevelInfo.render fmt))
      simp only [List.map_map, Function.comp, LevelInfo.render] at h2
      simp only [List.map_cons, List.map_map, Function.comp, toksStr_cons,
        RTok.text]
      exact h2

/-! ## Claims -/

/-- C1: for every CompactionInfo, FlushInfo, ManifestCreateInfo,
ManifestDeleteInfo, TableDeleteInfo, WALCreateInfo, WALDeleteInfo, and
TableIngestInfo payload whose `Err` field is set, the rendered string is
exactly the error shape — it contains the `"error"` indicator, carries no
output-rate statistics, and (since the right-hand sides below mention only
`JobID`, the error text, and for compaction the output level / for table
deletion the file number) is independent of `Done` and every other payload
field. -/
theorem err_set_renders_error_shape (fmt : ExtFmt) :
    (∀ (i : CompactionInfo) (e : String), i.Err = some e →
      i.render fmt = "[JOB " ++ toString i.JobID ++ "] compaction to L"
        ++ toString i.Output.Level ++ " error: " ++ fmt.sensitiveWrap e)
  ∧ (∀ (i : FlushInfo) (e : String), i.Err = some e →
      i.render fmt = "[JOB " ++ toString i.JobID ++ "] flush error: "
        ++ fmt.sensitiveWrap e)
  ∧ (∀ (i : ManifestCreateInfo) (e : String), i.Err = some e →
      i.render fmt = "[JOB " ++ toString i.JobID ++ "] MANIFEST create error: "
        ++ fmt.sensitiveWrap e)
  ∧ (∀ (i : ManifestDeleteInfo) (e : String), i.Err = some e →
      i.render fmt = "[JOB " ++ toString i.JobID ++ "] MANIFEST delete error: "
        ++ fmt.sensitiveWrap e)
  ∧ (∀ (i : TableDeleteInfo) (e : String), i.Err = some e →
      i.render fmt = "[JOB " ++ toString i.JobID ++ "] sstable delete error "
        ++ fmt.fileNumStr i.FileNum ++ ": " ++ fmt.sensitiveWrap e)
  ∧ (∀ (i : WALCreateInfo) (e : String), i.Err = some e →
      i.render fmt = "[JOB " ++ toString i.JobID ++ "] WAL create error: "
        ++ fmt.sensitiveWrap e)
  ∧ (∀ (i : WALDeleteInfo) (e : String), i.Err = some e →
      i.render fmt = "[JOB " ++ toString i.JobID ++ "] WAL delete error: "
        ++ fmt.sensitiveWrap e)
  ∧ (∀ (i : TableIngestInfo) (e : String), i.Err = some e →
      i.render fmt = "[JOB " ++ toString i.JobID ++ "] ingest error: "
        ++ fmt.sensitiveWrap e) := by
  refine ⟨?_, ?_, ?_, ?_, ?_, ?_, ?_, ?_⟩ <;>
    · intro i e h
      simp [CompactionInfo.render, CompactionInfo.toks, FlushInfo.render,
        FlushInfo.toks, ManifestCreateInfo.render, ManifestCreateInfo.toks,
        ManifestDeleteInfo.render, ManifestDeleteInfo.toks,
        TableDeleteInfo.render, TableDeleteInfo.toks, WALCreateInfo.render,
        WALCreateInfo.toks, WALDeleteInfo.render, WALDeleteInfo.toks,
        TableIngestInfo.render, TableIngestInfo.toks, h, toksStr_cons,
        toksStr_nil, RTok.text, String.append_assoc, String.append_empty]

/-- Witness for C1: each error-carrying payload type evaluated at a
concrete input produces the claimed error shape. -/
theorem err_set_renders_error_shape_witness :
    ({ JobID := 1, Reason := "r", Input := [], Output := { Level := 2, Tables := [⟨9, 10⟩] },
       Duration := 5, Done := true, Err := some "boom" } : CompactionInfo).render fmt0
      = "[JOB 1] compaction to L2 error: ‹boom›"
  ∧ ({ JobID := 2, Reason := "r", Input := 3, Output := [⟨9, 10⟩],
       Duration := 5, Done := true, Err := some "fe" } : FlushInfo).render fmt0
      = "[JOB 2] flush error: ‹fe›"
  ∧ ({ JobID := 3, Path := "/p", FileNum := 4, Err := some "mc" } : ManifestCreateInfo).render fmt0
      = "[JOB 3] MANIFEST create error: ‹mc›"
  ∧ ({ JobID := 4, Path := "/p", FileNum := 5, Err := some "md" } : ManifestDeleteInfo).render fmt0
      = "[JOB 4] MANIFEST delete error: ‹md›"
  ∧ ({ JobID := 5, Path := "/p", FileNum := 6, Err := some "td" } : TableDeleteInfo).render fmt0
      = "[JOB 5] sstable delete error 6: ‹td›"
  ∧ ({ JobID := 6, Path := "/p", FileNum := 7, RecycledFileNum := 8,
       Err := some "wc" } : WALCreateInfo).render fmt0
      = "[JOB 6] WAL create error: ‹wc›"
  ∧ ({ JobID := 7, Path := "/p", FileNum := 8, Err := some "wd" } : WALDeleteInfo).render fmt0
      = "[JOB 7] WAL delete error: ‹wd›"
  ∧ ({ JobID := 8, Tables := [⟨⟨9, 10⟩, 1⟩], GlobalSeqNum := 11,
       Err := some "ti" } : TableIngestInfo).render fmt0
      = "[JOB 8] ingest error: ‹ti›" := by
  have h := err_set_renders_error_shape fmt0
  exact ⟨(h.1 _ "boom" rfl).trans (by decide),
    (h.2.1 _ "fe" rfl).trans (by decide),
    (h.2.2.1 _ "mc" rfl).trans (by decide),
    (h.2.2.2.1 _ "md" rfl).trans (by decide),
    (h.2.2.2.2.1 _ "td" rfl).trans (by decide),
    (h.2.2.2.2.2.1 _ "wc" rfl).trans (by decide),
    (h.2.2.2.2.2.2.1 _ "wd" rfl).trans (by decide),
    (h.2.2.2.2.2.2.2 _ "ti" rfl).trans (by decide)⟩

/-- C7: for every non-error CompactionInfo the rendered string joins the
input level groups with `" + "` between them, in the order supplied, and
each group renders its file-number tokens space-separated inside brackets
(`L<level> [<fn> <fn> ...] (<size>)`). This holds in both the in-progress
and the completed shape (in particular for two or more groups). -/
theorem compaction_inputs_joined (fmt : ExtFmt) (i : CompactionInfo)
    (hE : i.Err = none) :
    (∀ li : LevelInfo, li.render fmt = "L" ++ toString li.Level ++ " ["
        ++ joinSep " " (li.Tables.map (fun t => fmt.fileNumStr t.FileNum))
        ++ "] (" ++ fmt.humanizeUint64 (tablesTotalSize li.Tables) ++ ")")
  ∧ (i.Done = false →
      i.render fmt = "[JOB " ++ toString i.JobID ++ "] compacting "
        ++ joinSep " + " (i.Input.map (LevelInfo.render fmt)))
  ∧ (i.Done = true →
      i.render fmt = "[JOB " ++ toString i.JobID ++ "] compacted "
        ++ joinSep " + " (i.Input.map (LevelInfo.render fmt))
        ++ " -> L" ++ toString i.Output.Level ++ " ["
        ++ formatFileNums fmt i.Output.Tables ++ "] ("
        ++ fmt.humanizeUint64 (tablesTotalSize i.Output.Tables) ++ "), in "
        ++ formatSeconds1 i.Duration ++ "s, output rate "
        ++ rateTok fmt (tablesTotalSize i.Output.Tables) i.Duration
        ++ "/s") := by
  refine ⟨?_, ?_, ?_⟩
  · intro li
    simp [LevelInfo.render, LevelInfo.toks, toksStr_cons, toksStr_nil,
      RTok.text, formatFileNums_eq_joinSep, String.append_assoc,
      String.append_empty]
  · intro hD
    simp only [CompactionInfo.render, CompactionInfo.toks, hE, hD,
      Bool.not_false, if_true]
    rw [toksStr_append, compaction_inputs_str]
    simp [toksStr_cons, toksStr_nil, RTok.text, String.append_assoc,
      String.append_empty]
  · intro hD
    simp only [CompactionInfo.render, CompactionInfo.toks, hE, hD,
      Bool.not_true]
    rw [if_neg (fun h => Bool.noConfusion h)]
    rw [toksStr_append, toksStr_append, compaction_inputs_str]
    simp [toksStr_cons, toksStr_nil, RTok.text, String.append_assoc,
      String.append_empty]

/-- Witness for C7: a two-group compaction input renders with `" + "`
between the groups and space-separated file numbers within each group. -/
theorem compaction_inputs_joined_witness :
    ({ JobID := 3, Reason := "", Input := [⟨0, [⟨10, 100⟩, ⟨11, 50⟩]⟩, ⟨1, [⟨12, 200⟩]⟩],
       Output := { Level := 1, Tables := [] }, Duration := 0, Done := false,
       Err := none } : CompactionInfo).render fmt0
      = "[JOB 3] compacting L0 [10 11] (150B) + L1 [12] (200B)" := by
  have h := (compaction_inputs_joined fmt0
    { JobID := 3, Reason := "", Input := [⟨0, [⟨10, 100⟩, ⟨11, 50⟩]⟩, ⟨1, [⟨12, 200⟩]⟩],
      Output := { Level := 1, Tables := [] }, Duration := 0, Done := false,
      Err := none } rfl).2.1 rfl
  exact h.trans (by decide)

/-- C8: for every FlushInfo with `Err = nil`, the rendered string uses the
singular `"memtable"` exactly when `Input == 1` and the plural
`"memtables"` for every other `Input` (including 0), in both the
in-progress and the completed shape. -/
theorem flush_memtable_pluralization (fmt : ExtFmt) (i : FlushInfo)
    (hE : i.Err = none) :
    (i.Done = false →
      i.render fmt = "[JOB " ++ toString i.JobID ++ "] flushing "
        ++ toString i.Input ++ " memtable"
        ++ (if i.Input = 1 then "" else "s") ++ " to L0")
  ∧ (i.Done = true →
      i.render fmt = "[JOB " ++ toString i.JobID ++ "] flushed "
        ++ toString i.Input ++ " memtable"
        ++ (if i.Input = 1 then "" else "s") ++ " to L0 ["
        ++ formatFileNums fmt i.Output ++ "] ("
        ++ fmt.humanizeUint64 (tablesTotalSize i.Output) ++ "), in "
        ++ formatSeconds1 i.Duration ++ "s, output rate "
        ++ rateTok fmt (tablesTotalSize i.Output) i.Duration ++ "/s") := by
  refine ⟨?_, ?_⟩ <;> intro hD
  · simp only [FlushInfo.render, FlushInfo.toks, hE, hD, Bool.not_false,
      if_true]
    simp [toksStr_cons, toksStr_nil, RTok.text, FlushInfo.plural,
      String.append_assoc, String.append_empty]
  · simp only [FlushInfo.render, FlushInfo.toks, hE, hD, Bool.not_true]
    rw [if_neg (fun h => Bool.noConfusion h)]
    simp [toksStr_cons, toksStr_nil, RTok.text, FlushInfo.plural,
      String.append_assoc, String.append_empty]

/-- Witness for C8: `Input = 1` renders the singular, `Input = 0` and
`Input = 2` the plural, in both shapes. -/
theorem flush_memtable_pluralization_witness :
    ({ JobID := 1, Reason := "", Input := 1, Output := [], Duration := 0,
       Done := false, Err := none } : FlushInfo).render fmt0
      = "[JOB 1] flushing 1 memtable to L0"
  ∧ ({ JobID := 2, Reason := "", Input := 0, Output := [], Duration := 0,
       Done := false, Err := none } : FlushInfo).render fmt0
      = "[JOB 2] flushing 0 memtables to L0"
  ∧ ({ JobID := 3, Reason := "", Input := 2, Output := [⟨22, 1000⟩],
       Duration := 1000000000, Done := true, Err := none } : FlushInfo).render fmt0
      = "[JOB 3] flushed 2 memtables to L0 [22] (1000B), in 1.0s, output rate 1000B/s" := by
  refine ⟨?_, ?_, ?_⟩
  · exact ((flush_memtable_pluralization fmt0 _ rfl).1 rfl).trans (by decide)
  · exact ((flush_memtable_pluralization fmt0 _ rfl).1 rfl).trans (by decide)
  · exact ((flush_memtable_pluralization fmt0 _ rfl).2 rfl).trans (by decide)

/-- C9: for every WALCreateInfo with `Err = nil`, the rendered string is the
plain `WAL created` shape when `RecycledFileNum == 0` (no mention of
recycling) and names the recycled file number when `RecycledFileNum != 0`. -/
theorem wal_create_recycling (fmt : ExtFmt) (i : WALCreateInfo)
    (hE : i.Err = none) :
    (i.RecycledFileNum = 0 →
      i.render fmt = "[JOB " ++ toString i.JobID ++ "] WAL created "
        ++ fmt.fileNumStr i.FileNum)
  ∧ (i.RecycledFileNum ≠ 0 →
      i.render fmt = "[JOB " ++ toString i.JobID ++ "] WAL created "
        ++ fmt.fileNumStr i.FileNum ++ " (recycled "
        ++ fmt.fileNumStr i.RecycledFileNum ++ ")") := by
  refine ⟨?_, ?_⟩ <;> intro hR
  · simp only [WALCreateInfo.render, WALCreateInfo.toks, hE, hR, if_true]
    simp [toksStr_cons, toksStr_nil, RTok.text, String.append_assoc,
      String.append_empty]
  · simp only [WALCreateInfo.render, WALCreateInfo.toks, hE]
    rw [if_neg hR]
    simp [toksStr_cons, toksStr_nil, RTok.text, String.append_assoc,
      String.append_empty]

/-- Witness for C9: a zero `RecycledFileNum` renders without recycling, a
nonzero one names the recycled file. -/
theorem wal_create_recycling_witness :
    ({ JobID := 1, Path := "/p", FileNum := 5, RecycledFileNum := 0,
       Err := none } : WALCreateInfo).render fmt0 = "[JOB 1] WAL created 5"
  ∧ ({ JobID := 2, Path := "/p", FileNum := 6, RecycledFileNum := 4,
       Err := none } : WALCreateInfo).render fmt0
      = "[JOB 2] WAL created 6 (recycled 4)" := by
  refine ⟨?_, ?_⟩
  · exact ((wal_create_recycling fmt0 _ rfl).1 rfl).trans (by decide)
  · exact ((wal_create_recycling fmt0 _ rfl).2 (by decide)).trans (by decide)

theorem ingest_tables_join (fmt : ExtFmt) (ts : List IngestTable) :
    toksStr fmt (ingestTablesToks fmt ts)
      = joinSep "," (ts.map (fun t => toksStr fmt (t.toks fmt))) := by
  cases ts with
  | nil => rfl
  | cons t0 rest =>
      simp only [ingestTablesToks]
      rw [toksStr_append, toksStr_flatten]
      have h2 := join_sepped_eq_joinSep "," (toksStr fmt (t0.toks fmt))
        (rest.map (fun t => toksStr fmt (t.toks fmt)))
      simp only [List.map_map, Function.comp] at h2
      simp only [List.map_cons, List.map_map, Function.comp, toksStr_cons,
        RTok.text]
      exact h2

/-- C10: for every TableIngestInfo with `Err = nil`, the rendered string
never includes `GlobalSeqNum` — the rendering is invariant under changing
it, and equals the job ID followed by, for each table in supplied order,
its level, file number, and humanized size, comma-joined. -/
theorem ingest_omits_global_seqnum (fmt : ExtFmt) (i : TableIngestInfo)
    (hE : i.Err = none) :
    (∀ g : Nat,
      ({ i with GlobalSeqNum := g } : TableIngestInfo).render fmt
        = i.render fmt)
  ∧ i.render fmt = "[JOB " ++ toString i.JobID ++ "] ingested"
      ++ joinSep "," (i.Tables.map (fun t => " L" ++ toString t.Level ++ ":"
          ++ fmt.fileNumStr t.Table.FileNum ++ " ("
          ++ fmt.humanizeUint64 t.Table.Size ++ ")")) := by
  refine ⟨fun g => rfl, ?_⟩
  simp only [TableIngestInfo.render, TableIngestInfo.toks, hE]
  rw [toksStr_append, ingest_tables_join]
  simp [toksStr_cons, toksStr_nil, RTok.text, IngestTable.toks,
    String.append_assoc, String.append_empty]

/-- Witness for C10: a two-table ingestion at different levels renders one
comma-joined line in supplied order, and changing `GlobalSeqNum` does not
change the rendering. -/
theorem ingest_omits_global_seqnum_witness :
    ({ JobID := 9, Tables := [⟨⟨100, 1000⟩, 0⟩, ⟨⟨101, 900⟩, 6⟩],
       GlobalSeqNum := 77, Err := none } : TableIngestInfo).render fmt0
      = "[JOB 9] ingested L0:100 (1000B), L6:101 (900B)"
  ∧ ({ JobID := 9, Tables := [⟨⟨100, 1000⟩, 0⟩, ⟨⟨101, 900⟩, 6⟩],
       GlobalSeqNum := 123456, Err := none } : TableIngestInfo).render fmt0
      =
    ({ JobID := 9, Tables := [⟨⟨100, 1000⟩, 0⟩, ⟨⟨101, 900⟩, 6⟩],
       GlobalSeqNum := 77, Err := none } : TableIngestInfo).render fmt0 := by
  refine ⟨?_, ?_⟩
  · exact ((ingest_omits_global_seqnum fmt0 _ rfl).2).trans (by decide)
  · exact ((ingest_omits_global_seqnum fmt0
      { JobID := 9, Tables := [⟨⟨100, 1000⟩, 0⟩, ⟨⟨101, 900⟩, 6⟩],
        GlobalSeqNum := 77, Err := none } rfl).1 123456)

/-- C6: the end-to-end compaction scenario — JobID 7, input level 0 file
100 of 1000 bytes, output level 1 file 101 of 900 bytes, duration one
second, done, no error — renders as the single completed line naming job
7, the input and output levels/files/sizes, elapsed `"1.0s"`, and the
humanized 900-bytes-per-second output rate, for every choice of the
external size/file-number formatters. -/
theorem compaction_scenario (fmt : ExtFmt) :
    ({ JobID := 7, Reason := "", Input := [⟨0, [⟨100, 1000⟩]⟩],
       Output := { Level := 1, Tables := [⟨101, 900⟩] },
       Duration := 1000000000, Done := true,
       Err := none } : CompactionInfo).render fmt
      = "[JOB 7] compacted L0 [" ++ fmt.fileNumStr 100 ++ "] ("
        ++ fmt.humanizeUint64 1000 ++ ") -> L1 [" ++ fmt.fileNumStr 101
        ++ "] (" ++ fmt.humanizeUint64 900 ++ "), in 1.0s, output rate "
        ++ fmt.humanizeUint64 900 ++ "/s"
  ∧ ({ JobID := 7, Reason := "", Input := [⟨0, [⟨100, 1000⟩]⟩],
       Output := { Level := 1, Tables := [⟨101, 900⟩] },
       Duration := 1000000000, Done := true,
       Err := none } : CompactionInfo).render fmt0
      = "[JOB 7] compacted L0 [100] (1000B) -> L1 [101] (900B), in 1.0s, output rate 900B/s" := by
  refine ⟨?_, by decide⟩
  simp [CompactionInfo.render, CompactionInfo.toks, CompactionInfo.inputToks,
    LevelInfo.toks, toksStr_append, toksStr_flatten, toksStr_cons,
    toksStr_nil, RTok.text,
    show toString (7 : Int) = "7" from rfl,
    show toString (0 : Int) = "0" from rfl,
    show toString (1 : Int) = "1" from rfl,
    show formatSeconds1 1000000000 = "1.0" from rfl,
    show tablesTotalSize [⟨101, 900⟩] = 900 from by decide,
    show tablesTotalSize [⟨100, 1000⟩] = 1000 from by decide,
    show rateTok fmt 900 1000000000 = fmt.humanizeUint64 900 from rfl,
    show formatFileNums fmt [⟨100, 1000⟩] = fmt.fileNumStr 100 from rfl,
    show formatFileNums fmt [⟨101, 900⟩] = fmt.fileNumStr 101 from rfl,
    ← String.append_assoc, String.append_empty]

/-- C2 (the code lacks the guard the spec requires): the output-rate
expression of the completed compaction and flush shapes is an unguarded
division — `outputRate` is undefined (`none`) at a zero duration, and the
rendered line at `Duration = 0` carries the humanization of the
platform-unspecified `uint64` conversion of the Inf/NaN quotient instead
of a defined `"n/a"`-style guard. -/
theorem zero_duration_rate_unguarded (fmt : ExtFmt) :
    outputRate 900 0 = none
  ∧ formatSeconds1 0 = "0.0"
  ∧ (∀ i : CompactionInfo, i.Err = none → i.Done = true → i.Duration = 0 →
      i.render fmt = "[JOB " ++ toString i.JobID ++ "] compacted "
        ++ toksStr fmt (i.inputToks fmt) ++ " -> L" ++ toString i.Output.Level
        ++ " [" ++ formatFileNums fmt i.Output.Tables ++ "] ("
        ++ fmt.humanizeUint64 (tablesTotalSize i.Output.Tables)
        ++ "), in " ++ formatSeconds1 0 ++ "s, output rate "
        ++ fmt.humanizeUint64 fmt.undefinedU64 ++ "/s")
  ∧ (∀ i : FlushInfo, i.Err = none → i.Done = true → i.Duration = 0 →
      i.render fmt = "[JOB " ++ toString i.JobID ++ "] flushed "
        ++ toString i.Input ++ " memtable"
        ++ (if i.Input = 1 then "" else "s") ++ " to L0 ["
        ++ formatFileNums fmt i.Output ++ "] ("
        ++ fmt.humanizeUint64 (tablesTotalSize i.Output)
        ++ "), in " ++ formatSeconds1 0 ++ "s, output rate "
        ++ fmt.humanizeUint64 fmt.undefinedU64 ++ "/s") := by
  refine ⟨rfl, rfl, ?_, ?_⟩
  · intro i hE hD hDur
    simp only [CompactionInfo.render, CompactionInfo.toks, hE, hD, hDur,
      Bool.not_true]
    rw [if_neg (fun h => Bool.noConfusion h)]
    rw [toksStr_append, toksStr_append]
    simp [toksStr_cons, toksStr_nil, RTok.text,
      show ∀ n, rateTok fmt n 0 = fmt.humanizeUint64 fmt.undefinedU64
        from fun n => rfl,
      String.append_assoc, String.append_empty]
  · intro i hE hD hDur
    simp only [FlushInfo.render, FlushInfo.toks, hE, hD, hDur, Bool.not_true]
    rw [if_neg (fun h => Bool.noConfusion h)]
    simp [toksStr_cons, toksStr_nil, RTok.text, FlushInfo.plural,
      show ∀ n, rateTok fmt n 0 = fmt.humanizeUint64 fmt.undefinedU64
        from fun n => rfl,
      String.append_assoc, String.append_empty]

/-- Witness for C2: the scenario of C6 but with `Duration = 0` renders an
undefined rate token (`fmt0` humanizes its unspecified-`uint64` stand-in
42), not a guarded value. -/
theorem zero_duration_rate_unguarded_witness :
    outputRate 900 0 = none
  ∧ ({ JobID := 7, Reason := "", Input := [⟨0, [⟨100, 1000⟩]⟩],
       Output := { Level := 1, Tables := [⟨101, 900⟩] }, Duration := 0,
       Done := true, Err := none } : CompactionInfo).render fmt0
      = "[JOB 7] compacted L0 [100] (1000B) -> L1 [101] (900B), in 0.0s, output rate 42B/s" := by
  have h := zero_duration_rate_unguarded fmt0
  exact ⟨h.1, (h.2.2.1 _ rfl rfl rfl).trans (by decide)⟩

/-- C3 counterexample: the `Reason` fields of TableCreateInfo and
WriteStallBeginInfo are wrapped in `redact.Safe` — at these concrete
payloads every rendered token is tagged safe and no sensitive-tagged
`Reason` token exists, contradicting the claim that `Reason` is tagged
sensitive. -/
theorem reason_tagged_safe_counterexample :
    TableCreateInfo.toks fmt0
        { JobID := 1, Reason := "flushing", Path := "/tmp/x", FileNum := 2 }
      = [.safe "[JOB ", .safe "1", .safe "] ", .safe "flushing",
         .safe ": sstable created ", .safe "2"]
  ∧ RTok.sensitive "flushing" ∉ TableCreateInfo.toks fmt0
        { JobID := 1, Reason := "flushing", Path := "/tmp/x", FileNum := 2 }
  ∧ WriteStallBeginInfo.toks { Reason := "memtable full" }
      = [.safe "write stall beginning: ", .safe "memtable full"]
  ∧ RTok.sensitive "memtable full"
      ∉ WriteStallBeginInfo.toks { Reason := "memtable full" } := by
  refine ⟨by decide, by decide, rfl, by decide⟩

/-- C3 amended: only the `Err` message text crosses the redaction boundary
unwrapped (tagged sensitive); the `Reason` fields of TableCreateInfo and
WriteStallBeginInfo are wrapped `redact.Safe` (tagged disclosable), and the
`Path` fields are never rendered at all — the token output is invariant
under changing `Path`. -/
theorem redaction_classification (fmt : ExtFmt) :
    (∀ i : TableCreateInfo, i.toks fmt
        = [.safe "[JOB ", .safe (toString i.JobID), .safe "] ",
           .safe i.Reason, .safe ": sstable created ",
           .safe (fmt.fileNumStr i.FileNum)])
  ∧ (∀ i : WriteStallBeginInfo,
      i.toks = [.safe "write stall beginning: ", .safe i.Reason])
  ∧ (∀ (i : ManifestDeleteInfo) (e : String), i.Err = some e →
      i.toks fmt = [.safe "[JOB ", .safe (toString i.JobID),
        .safe "] MANIFEST delete error: ", .sensitive e])
  ∧ (∀ (i : ManifestDeleteInfo) (p : String),
      ({ i with Path := p } : ManifestDeleteInfo).toks fmt = i.toks fmt)
  ∧ (∀ (i : TableCreateInfo) (p : String),
      ({ i with Path := p } : TableCreateInfo).toks fmt = i.toks fmt) := by
  refine ⟨fun i => rfl, fun i => rfl, ?_, fun i p => rfl, fun i p => rfl⟩
  intro i e h
  simp [ManifestDeleteInfo.toks, h]

/-- Witness for C3's amended theorem: the error conjunct applied at a
concrete erroring manifest deletion. -/
theorem redaction_classification_witness :
    ManifestDeleteInfo.toks fmt0
        { JobID := 4, Path := "/p", FileNum := 5, Err := some "md" }
      = [.safe "[JOB ", .safe "4", .safe "] MANIFEST delete error: ",
         .sensitive "md"] := by
  exact ((redaction_classification fmt0).2.2.1 _ "md" rfl).trans (by decide)

theorem orDefault_orDefault {α : Type} (x : Option α) (d d' : α) :
    orDefault (orDefault x d) d' = orDefault x d := by
  cases x <;> rfl

theorem orDefault_eq_getD {α : Type} (x : Option α) (d : α) :
    orDefault x d = some (x.getD d) := by
  cases x <;> rfl

theorem orDefault_isSome {α : Type} (x : Option α) (d : α) :
    (orDefault x d).isSome = true := by
  cases x <;> rfl

/-- C4: `EnsureDefaults` is idempotent — applying it twice (with the same
logger) yields the same registry as applying it once; moreover each
resulting slot is exactly the originally-set callback when one was set,
and the default otherwise (so set slots are untouched and unset slots are
filled exactly once). -/
theorem ensure_defaults_idempotent (l : EventListener) (lg : Logger) :
    (l.EnsureDefaults lg).EnsureDefaults lg = l.EnsureDefaults lg
  ∧ (l.EnsureDefaults lg).BackgroundError
      = some (l.BackgroundError.getD (defaultBackgroundError lg))
  ∧ (l.EnsureDefaults lg).CompactionBegin
      = some (l.CompactionBegin.getD (fun _ => []))
  ∧ (l.EnsureDefaults lg).CompactionEnd
      = some (l.CompactionEnd.getD (fun _ => []))
  ∧ (l.EnsureDefaults lg).FlushBegin
      = some (l.FlushBegin.getD (fun _ => []))
  ∧ (l.EnsureDefaults lg).FlushEnd
      = some (l.FlushEnd.getD (fun _ => []))
  ∧ (l.EnsureDefaults lg).ManifestCreated
      = some (l.ManifestCreated.getD (fun _ => []))
  ∧ (l.EnsureDefaults lg).ManifestDeleted
      = some (l.ManifestDeleted.getD (fun _ => []))
  ∧ (l.EnsureDefaults lg).TableCreated
      = some (l.TableCreated.getD (fun _ => []))
  ∧ (l.EnsureDefaults lg).TableDeleted
      = some (l.TableDeleted.getD (fun _ => []))
  ∧ (l.EnsureDefaults lg).TableIngested
      = some (l.TableIngested.getD (fun _ => []))
  ∧ (l.EnsureDefaults lg).TableStatsLoaded
      = some (l.TableStatsLoaded.getD (fun _ => []))
  ∧ (l.EnsureDefaults lg).WALCreated
      = some (l.WALCreated.getD (fun _ => []))
  ∧ (l.EnsureDefaults lg).WALDeleted
      = some (l.WALDeleted.getD (fun _ => []))
  ∧ (l.EnsureDefaults lg).WriteStallBegin
      = some (l.WriteStallBegin.getD (fun _ => []))
  ∧ (l.EnsureDefaults lg).WriteStallEnd
      = some (l.WriteStallEnd.getD (fun _ => [])) := by
  refine ⟨?_, ?_, ?_, ?_, ?_, ?_, ?_, ?_, ?_, ?_, ?_, ?_, ?_, ?_, ?_, ?_⟩ <;>
    simp [EventListener.EnsureDefaults, orDefault_orDefault, orDefault_eq_getD]

/-- C5: after `EnsureDefaults`, every slot is non-nil; every slot the
caller left unset becomes the no-op callback that emits no `Infof` call —
except `BackgroundError`, whose default forwards the error to the supplied
logging sink via `Infof("background error: %s", err)`. -/
theorem ensure_defaults_noop_slots (l : EventListener) (lg : Logger) :
    ((l.EnsureDefaults lg).BackgroundError.isSome = true
      ∧ (l.EnsureDefaults lg).CompactionBegin.isSome = true
      ∧ (l.EnsureDefaults lg).CompactionEnd.isSome = true
      ∧ (l.EnsureDefaults lg).FlushBegin.isSome = true
      ∧ (l.EnsureDefaults lg).FlushEnd.isSome = true
      ∧ (l.EnsureDefaults lg).ManifestCreated.isSome = true
      ∧ (l.EnsureDefaults lg).ManifestDeleted.isSome = true
      ∧ (l.EnsureDefaults lg).TableCreated.isSome = true
      ∧ (l.EnsureDefaults lg).TableDeleted.isSome = true
      ∧ (l.EnsureDefaults lg).TableIngested.isSome = true
      ∧ (l.EnsureDefaults lg).TableStatsLoaded.isSome = true
      ∧ (l.EnsureDefaults lg).WALCreated.isSome = true
      ∧ (l.EnsureDefaults lg).WALDeleted.isSome = true
      ∧ (l.EnsureDefaults lg).WriteStallBegin.isSome = true
      ∧ (l.EnsureDefaults lg).WriteStallEnd.isSome = true)
  ∧ (l.BackgroundError = none →
      (l.EnsureDefaults lg).BackgroundError
        = some (fun err => [⟨lg, "background error: %s", [err]⟩]))
  ∧ (l.CompactionBegin = none →
      (l.EnsureDefaults lg).CompactionBegin = some (fun _ => []))
  ∧ (l.CompactionEnd = none →
      (l.EnsureDefaults lg).CompactionEnd = some (fun _ => []))
  ∧ (l.FlushBegin = none →
      (l.EnsureDefaults lg).FlushBegin = some (fun _ => []))
  ∧ (l.FlushEnd = none →
      (l.EnsureDefaults lg).FlushEnd = some (fun _ => []))
  ∧ (l.ManifestCreated = none →
      (l.EnsureDefaults lg).ManifestCreated = some (fun _ => []))
  ∧ (l.ManifestDeleted = none →
      (l.EnsureDefaults lg).ManifestDeleted = some (fun _ => []))
  ∧ (l.TableCreated = none →
      (l.EnsureDefaults lg).TableCreated = some (fun _ => []))
  ∧ (l.TableDeleted = none →
      (l.EnsureDefaults lg).TableDeleted = some (fun _ => []))
  ∧ (l.TableIngested = none →
      (l.EnsureDefaults lg).TableIngested = some (fun _ => []))
  ∧ (l.TableStatsLoaded = none →
      (l.EnsureDefaults lg).TableStatsLoaded = some (fun _ => []))
  ∧ (l.WALCreated = none →
      (l.EnsureDefaults lg).WALCreated = some (fun _ => []))
  ∧ (l.WALDeleted = none →
      (l.EnsureDefaults lg).WALDeleted = some (fun _ => []))
  ∧ (l.WriteStallBegin = none →
      (l.EnsureDefaults lg).WriteStallBegin = some (fun _ => []))
  ∧ (l.WriteStallEnd = none →
      (l.EnsureDefaults lg).WriteStallEnd = some (fun _ => [])) := by
  refine ⟨⟨?_, ?_, ?_, ?_, ?_, ?_, ?_, ?_, ?_, ?_, ?_, ?_, ?_, ?_, ?_⟩,
    ?_, ?_, ?_, ?_, ?_, ?_, ?_, ?_, ?_, ?_, ?_, ?_, ?_, ?_, ?_⟩ <;>
    first
      | exact orDefault_isSome _ _
      | (intro h
         simp only [EventListener.EnsureDefaults, h, orDefault]
         try rfl)

/-- Witness for C5: starting from the listener with every slot unset, each
slot of the normalized registry is the claimed default. -/
theorem ensure_defaults_noop_slots_witness :
    (emptyListener.EnsureDefaults lg0).BackgroundError
      = some (fun err => [⟨lg0, "background error: %s", [err]⟩])
  ∧ (emptyListener.EnsureDefaults lg0).CompactionBegin = some (fun _ => [])
  ∧ (emptyListener.EnsureDefaults lg0).CompactionEnd = some (fun _ => [])
  ∧ (emptyListener.EnsureDefaults lg0).FlushBegin = some (fun _ => [])
  ∧ (emptyListener.EnsureDefaults lg0).FlushEnd = some (fun _ => [])
  ∧ (emptyListener.EnsureDefaults lg0).ManifestCreated = some (fun _ => [])
  ∧ (emptyListener.EnsureDefaults lg0).ManifestDeleted = some (fun _ => [])
  ∧ (emptyListener.EnsureDefaults lg0).TableCreated = some (fun _ => [])
  ∧ (emptyListener.EnsureDefaults lg0).TableDeleted = some (fun _ => [])
  ∧ (emptyListener.EnsureDefaults lg0).TableIngested = some (fun _ => [])
  ∧ (emptyListener.EnsureDefaults lg0).TableStatsLoaded = some (fun _ => [])
  ∧ (emptyListener.EnsureDefaults lg0).WALCreated = some (fun _ => [])
  ∧ (emptyListener.EnsureDefaults lg0).WALDeleted = some (fun _ => [])
  ∧ (emptyListener.EnsureDefaults lg0).WriteStallBegin = some (fun _ => [])
  ∧ (emptyListener.EnsureDefaults lg0).WriteStallEnd = some (fun _ => [])
  ∧ (emptyListener.EnsureDefaults lg0).BackgroundError.isSome = true := by
  have h := ensure_defaults_noop_slots emptyListener lg0
  exact ⟨h.2.1 rfl, h.2.2.1 rfl, h.2.2.2.1 rfl, h.2.2.2.2.1 rfl,
    h.2.2.2.2.2.1 rfl, h.2.2.2.2.2.2.1 rfl, h.2.2.2.2.2.2.2.1 rfl,
    h.2.2.2.2.2.2.2.2.1 rfl, h.2.2.2.2.2.2.2.2.2.1 rfl,
    h.2.2.2.2.2.2.2.2.2.2.1 rfl, h.2.2.2.2.2.2.2.2.2.2.2.1 rfl,
    h.2.2.2.2.2.2.2.2.2.2.2.2.1 rfl, h.2.2.2.2.2.2.2.2.2.2.2.2.2.1 rfl,
    h.2.2.2.2.2.2.2.2.2.2.2.2.2.2.1 rfl,
    h.2.2.2.2.2.2.2.2.2.2.2.2.2.2.2 rfl, h.1.1⟩

end Pebble
